import Mathlib

/-!
Verification of the skinview3d player-rig core against its source.

The rig and viewer state is embedded shallowly: every three.js `Object3D`
transform that the repository's own code reads or writes is a field of an
explicit state record, and every method under scrutiny becomes a pure state
transformer transcribed from `src/model.ts` and `src/viewer.ts`.
JavaScript numbers are modelled as rationals (every concrete value the code
writes is a decimal literal, hence rational); the keyframe interpolation
engine is stated over an arbitrary linear ordered field so that the
π-valued test vectors of the specification can be expressed over ℝ.
-/

/-- A 3-component vector (used for positions, Euler rotations and scales). -/
structure Vec3 where
  x : ℚ
  y : ℚ
  z : ℚ
deriving DecidableEq, Repr

/-- The zero vector: the value written by `rotation.set(0, 0, 0)` etc. -/
def vzero : Vec3 := ⟨0, 0, 0⟩

/-- Arguments of a `setSkinUVs(box, u, v, width, height, depth)` call:
the texture-sampling rectangle currently applied to a box geometry. -/
structure UVRect where
  u : ℚ
  v : ℚ
  width : ℚ
  height : ℚ
  depth : ℚ
deriving DecidableEq, Repr

/-- The per-mesh state written by `SkinObject`'s model listeners:
the mesh scale and the skin UV rectangle of its box geometry. -/
structure MeshState where
  scale : Vec3
  uv : UVRect
deriving DecidableEq, Repr

/-- Visibility flags of a `BodyPart`'s two layer meshes. -/
structure LayerVis where
  inner : Bool
  outer : Bool
deriving DecidableEq, Repr

/-- The model variant flag (`ModelType` from skinview-utils). -/
inductive ModelType where
  | default
  | slim
deriving DecidableEq, Repr

/-- The mutable state of a `SkinObject` (src/model.ts, class `SkinObject`):
local position and Euler rotation of every named body part and pivot group,
the `slim` flag, the listener-controlled arm mesh scales and UV rectangles,
and the layer visibility of every `BodyPart`. -/
structure SkinState where
  slim : Bool
  -- BodyPart transforms
  headRot : Vec3
  headPos : Vec3
  bodyRot : Vec3
  bodyPos : Vec3
  rightUpperArmRot : Vec3
  rightUpperArmPos : Vec3
  leftUpperArmRot : Vec3
  leftUpperArmPos : Vec3
  rightUpperLegRot : Vec3
  rightUpperLegPos : Vec3
  leftUpperLegRot : Vec3
  leftUpperLegPos : Vec3
  rightLowerArmRot : Vec3
  rightLowerArmPos : Vec3
  leftLowerArmRot : Vec3
  leftLowerArmPos : Vec3
  rightLowerLegRot : Vec3
  rightLowerLegPos : Vec3
  leftLowerLegRot : Vec3
  leftLowerLegPos : Vec3
  -- elbow / knee pivot groups
  rightElbowRot : Vec3
  rightElbowPos : Vec3
  leftElbowRot : Vec3
  leftElbowPos : Vec3
  rightKneeRot : Vec3
  rightKneePos : Vec3
  leftKneeRot : Vec3
  leftKneePos : Vec3
  -- upper/lower arm and leg pivot groups
  rightUpperArmPivotRot : Vec3
  rightUpperArmPivotPos : Vec3
  leftUpperArmPivotRot : Vec3
  leftUpperArmPivotPos : Vec3
  rightLowerArmPivotRot : Vec3
  rightLowerArmPivotPos : Vec3
  leftLowerArmPivotRot : Vec3
  leftLowerArmPivotPos : Vec3
  rightUpperLegPivotRot : Vec3
  rightUpperLegPivotPos : Vec3
  leftUpperLegPivotRot : Vec3
  leftUpperLegPivotPos : Vec3
  rightLowerLegPivotRot : Vec3
  rightLowerLegPivotPos : Vec3
  leftLowerLegPivotRot : Vec3
  leftLowerLegPivotPos : Vec3
  -- arm meshes driven by the model listeners (layer 1 and layer 2)
  rightUpperArmMesh : MeshState
  rightForearmUpperMesh : MeshState
  rightForearmLowerMesh : MeshState
  rightUpperArm2Mesh : MeshState
  rightForearmUpper2Mesh : MeshState
  rightForearmLower2Mesh : MeshState
  leftUpperArmMesh : MeshState
  leftForearmUpperMesh : MeshState
  leftForearmLowerMesh : MeshState
  leftUpperArm2Mesh : MeshState
  leftForearmUpper2Mesh : MeshState
  leftForearmLower2Mesh : MeshState
  -- layer visibility per BodyPart
  headVis : LayerVis
  bodyVis : LayerVis
  rightUpperArmVis : LayerVis
  leftUpperArmVis : LayerVis
  rightUpperLegVis : LayerVis
  leftUpperLegVis : LayerVis
  rightLowerArmVis : LayerVis
  leftLowerArmVis : LayerVis
  rightLowerLegVis : LayerVis
  leftLowerLegVis : LayerVis
deriving DecidableEq, Repr

namespace SkinObject

/-- The body of the model listeners registered in the `SkinObject`
constructor, run by the `modelType` setter (`this.modelListeners.forEach`):
writes every arm mesh scale, every arm UV rectangle, and the x offset of the
two upper-arm pivots, all as functions of `slim` alone. -/
def applyModelListeners (s : SkinState) : SkinState :=
  let armW : ℚ := if s.slim then 3 else 4
  let arm2W : ℚ := if s.slim then 7/2 else 9/2
  { s with
    rightUpperArmMesh := ⟨⟨armW, 4, 4⟩, ⟨40, 16, armW, 4, 4⟩⟩
    rightForearmUpperMesh := ⟨⟨armW, 4, 4⟩, ⟨40, 20, armW, 4, 4⟩⟩
    rightForearmLowerMesh := ⟨⟨armW, 4, 4⟩, ⟨40, 24, armW, 4, 4⟩⟩
    rightUpperArm2Mesh := ⟨⟨arm2W, 9/2, 9/2⟩, ⟨40, 32, armW, 4, 4⟩⟩
    rightForearmUpper2Mesh := ⟨⟨arm2W, 9/2, 9/2⟩, ⟨40, 36, armW, 4, 4⟩⟩
    rightForearmLower2Mesh := ⟨⟨arm2W, 9/2, 9/2⟩, ⟨40, 40, armW, 4, 4⟩⟩
    leftUpperArmMesh := ⟨⟨armW, 4, 4⟩, ⟨32, 48, armW, 4, 4⟩⟩
    leftForearmUpperMesh := ⟨⟨armW, 4, 4⟩, ⟨32, 52, armW, 4, 4⟩⟩
    leftForearmLowerMesh := ⟨⟨armW, 4, 4⟩, ⟨32, 56, armW, 4, 4⟩⟩
    leftUpperArm2Mesh := ⟨⟨arm2W, 9/2, 9/2⟩, ⟨48, 48, armW, 4, 4⟩⟩
    leftForearmUpper2Mesh := ⟨⟨arm2W, 9/2, 9/2⟩, ⟨48, 52, armW, 4, 4⟩⟩
    leftForearmLower2Mesh := ⟨⟨arm2W, 9/2, 9/2⟩, ⟨48, 56, armW, 4, 4⟩⟩
    rightUpperArmPivotPos :=
      ⟨if s.slim then -1/2 else -1, s.rightUpperArmPivotPos.y, s.rightUpperArmPivotPos.z⟩
    leftUpperArmPivotPos :=
      ⟨if s.slim then 1/2 else 1, s.leftUpperArmPivotPos.y, s.leftUpperArmPivotPos.z⟩ }

/-- The `modelType` setter (src/model.ts): sets `slim` from the value and
runs every model listener. -/
def setModelType (value : ModelType) (s : SkinState) : SkinState :=
  applyModelListeners { s with slim := value = ModelType.slim }

/-- `SkinObject.resetJoints` (src/model.ts lines 542-580), transcribed
statement by statement. Note the source resets the rotations of the body
parts and of the elbow/knee groups, but only the positions (never the
rotations) of the eight `*Pivot` groups, and only the y component of the
head position. -/
def resetJoints (s : SkinState) : SkinState :=
  { s with
    headRot := vzero
    leftUpperArmRot := vzero
    rightUpperArmRot := vzero
    leftUpperLegRot := vzero
    rightUpperLegRot := vzero
    rightLowerArmRot := vzero
    leftLowerArmRot := vzero
    rightLowerLegRot := vzero
    leftLowerLegRot := vzero
    rightElbowRot := vzero
    leftElbowRot := vzero
    rightKneeRot := vzero
    leftKneeRot := vzero
    rightElbowPos := ⟨0, -4, 0⟩
    leftElbowPos := ⟨0, -4, 0⟩
    rightKneePos := ⟨0, -4, 0⟩
    leftKneePos := ⟨0, -4, 0⟩
    rightUpperArmPivotPos := ⟨if s.slim then -1/2 else -1, -4, 0⟩
    leftUpperArmPivotPos := ⟨if s.slim then 1/2 else 1, -4, 0⟩
    rightLowerArmPivotPos := ⟨0, -4, 0⟩
    leftLowerArmPivotPos := ⟨0, -4, 0⟩
    rightUpperLegPivotPos := ⟨0, -6, 0⟩
    leftUpperLegPivotPos := ⟨0, -6, 0⟩
    rightLowerLegPivotPos := ⟨0, -4, 0⟩
    leftLowerLegPivotPos := ⟨0, -4, 0⟩
    rightLowerArmPos := vzero
    leftLowerArmPos := vzero
    rightLowerLegPos := vzero
    leftLowerLegPos := vzero
    bodyRot := vzero
    headPos := ⟨s.headPos.x, 0, s.headPos.z⟩
    bodyPos := ⟨0, -6, 0⟩
    rightUpperArmPos := ⟨-5, -2, 0⟩
    leftUpperArmPos := ⟨5, -2, 0⟩
    rightUpperLegPos := ⟨-19/10, -12, -1/10⟩
    leftUpperLegPos := ⟨19/10, -12, -1/10⟩ }

/-- `setInnerLayerVisible` (src/model.ts): sets `innerLayer.visible` on
every `BodyPart` collected by `getBodyParts` (the ten body parts). -/
def setInnerLayerVisible (value : Bool) (s : SkinState) : SkinState :=
  { s with
    headVis := { s.headVis with inner := value }
    bodyVis := { s.bodyVis with inner := value }
    rightUpperArmVis := { s.rightUpperArmVis with inner := value }
    leftUpperArmVis := { s.leftUpperArmVis with inner := value }
    rightUpperLegVis := { s.rightUpperLegVis with inner := value }
    leftUpperLegVis := { s.leftUpperLegVis with inner := value }
    rightLowerArmVis := { s.rightLowerArmVis with inner := value }
    leftLowerArmVis := { s.leftLowerArmVis with inner := value }
    rightLowerLegVis := { s.rightLowerLegVis with inner := value }
    leftLowerLegVis := { s.leftLowerLegVis with inner := value } }

/-- `setOuterLayerVisible` (src/model.ts): sets `outerLayer.visible` on
every `BodyPart` collected by `getBodyParts`. -/
def setOuterLayerVisible (value : Bool) (s : SkinState) : SkinState :=
  { s with
    headVis := { s.headVis with outer := value }
    bodyVis := { s.bodyVis with outer := value }
    rightUpperArmVis := { s.rightUpperArmVis with outer := value }
    leftUpperArmVis := { s.leftUpperArmVis with outer := value }
    rightUpperLegVis := { s.rightUpperLegVis with outer := value }
    leftUpperLegVis := { s.leftUpperLegVis with outer := value }
    rightLowerArmVis := { s.rightLowerArmVis with outer := value }
    leftLowerArmVis := { s.leftLowerArmVis with outer := value }
    rightLowerLegVis := { s.rightLowerLegVis with outer := value }
    leftLowerLegVis := { s.leftLowerLegVis with outer := value } }

end SkinObject

/-- The state of a freshly constructed `SkinObject` before the trailing
`this.modelType = "default"` assignment: all `Group` transforms default to
zero except those the constructor writes explicitly; all layers visible.
Listener-controlled mesh fields hold placeholder defaults (a fresh
`BoxGeometry()` has unit scale and unset UVs; they are fully overwritten by
the listener run triggered at the end of the constructor). -/
def preSkinState : SkinState :=
  let m0 : MeshState := ⟨⟨1, 1, 1⟩, ⟨0, 0, 0, 0, 0⟩⟩
  let visOn : LayerVis := ⟨true, true⟩
  { slim := false
    headRot := vzero, headPos := vzero
    bodyRot := vzero, bodyPos := ⟨0, -6, 0⟩
    rightUpperArmRot := vzero, rightUpperArmPos := ⟨-5, -2, 0⟩
    leftUpperArmRot := vzero, leftUpperArmPos := ⟨5, -2, 0⟩
    rightUpperLegRot := vzero, rightUpperLegPos := ⟨-19/10, -12, -1/10⟩
    leftUpperLegRot := vzero, leftUpperLegPos := ⟨19/10, -12, -1/10⟩
    rightLowerArmRot := vzero, rightLowerArmPos := vzero
    leftLowerArmRot := vzero, leftLowerArmPos := vzero
    rightLowerLegRot := vzero, rightLowerLegPos := vzero
    leftLowerLegRot := vzero, leftLowerLegPos := vzero
    rightElbowRot := vzero, rightElbowPos := ⟨0, -4, 0⟩
    leftElbowRot := vzero, leftElbowPos := ⟨0, -4, 0⟩
    rightKneeRot := vzero, rightKneePos := ⟨0, -4, 0⟩
    leftKneeRot := vzero, leftKneePos := ⟨0, -4, 0⟩
    rightUpperArmPivotRot := vzero, rightUpperArmPivotPos := ⟨0, -4, 0⟩
    leftUpperArmPivotRot := vzero, leftUpperArmPivotPos := ⟨0, -4, 0⟩
    rightLowerArmPivotRot := vzero, rightLowerArmPivotPos := ⟨0, -4, 0⟩
    leftLowerArmPivotRot := vzero, leftLowerArmPivotPos := ⟨0, -4, 0⟩
    rightUpperLegPivotRot := vzero, rightUpperLegPivotPos := ⟨0, -6, 0⟩
    leftUpperLegPivotRot := vzero, leftUpperLegPivotPos := ⟨0, -6, 0⟩
    rightLowerLegPivotRot := vzero, rightLowerLegPivotPos := ⟨0, -4, 0⟩
    leftLowerLegPivotRot := vzero, leftLowerLegPivotPos := ⟨0, -4, 0⟩
    rightUpperArmMesh := m0, rightForearmUpperMesh := m0, rightForearmLowerMesh := m0
    rightUpperArm2Mesh := m0, rightForearmUpper2Mesh := m0, rightForearmLower2Mesh := m0
    leftUpperArmMesh := m0, leftForearmUpperMesh := m0, leftForearmLowerMesh := m0
    leftUpperArm2Mesh := m0, leftForearmUpper2Mesh := m0, leftForearmLower2Mesh := m0
    headVis := visOn, bodyVis := visOn
    rightUpperArmVis := visOn, leftUpperArmVis := visOn
    rightUpperLegVis := visOn, leftUpperLegVis := visOn
    rightLowerArmVis := visOn, leftLowerArmVis := visOn
    rightLowerLegVis := visOn, leftLowerLegVis := visOn }

/-- A freshly constructed `SkinObject`: the constructor ends with
`this.modelType = "default"`, which runs the model listeners. -/
def initialSkinState : SkinState :=
  SkinObject.setModelType ModelType.default preSkinState

/-- The mutable state of an `ElytraObject` (src/model.ts): the local
position and Euler rotation of its two wing groups. -/
structure ElytraState where
  leftWingPos : Vec3
  leftWingRot : Vec3
  rightWingPos : Vec3
  rightWingRot : Vec3
deriving DecidableEq, Repr

namespace ElytraObject

/-- `ElytraObject.updateRightWing` (src/model.ts): mirrors the position and
rotation of the left wing onto the right wing (x position and y/z rotation
negated; z position and the wings' z rotation offsets untouched). -/
def updateRightWing (e : ElytraState) : ElytraState :=
  { e with
    rightWingPos := ⟨-e.leftWingPos.x, e.leftWingPos.y, e.rightWingPos.z⟩
    rightWingRot := ⟨e.leftWingRot.x, -e.leftWingRot.y, -e.leftWingRot.z⟩ }

/-- `ElytraObject.resetJoints` (src/model.ts): writes the left wing's y/z
rest rotation and then mirrors it onto the right wing. -/
def resetJoints (e : ElytraState) : ElytraState :=
  updateRightWing
    { e with leftWingRot := ⟨e.leftWingRot.x, 1/100, 2617994/10000000⟩ }

end ElytraObject

/-- The elytra state produced by the `ElytraObject` constructor: the left
wing is placed at x = 5 with its rest x rotation, then `resetJoints` runs. -/
def initialElytraState : ElytraState :=
  ElytraObject.resetJoints
    { leftWingPos := ⟨5, 0, 0⟩
      leftWingRot := ⟨2617994/10000000, 0, 0⟩
      rightWingPos := vzero
      rightWingRot := vzero }

/-- The back equipment tri-state (`BackEquipment | null` in src/model.ts). -/
inductive BackEquipment where
  | cape
  | elytra
deriving DecidableEq, Repr

/-- `Math.PI` as the decimal rendering of the IEEE-754 double used by the
runtime; only used inside `CapeDefaultAngle`, whose exact value no claim
depends on. -/
def mathPI : ℚ := 3.141592653589793

/-- `CapeDefaultAngle = (10.8 * Math.PI) / 180` (src/model.ts). -/
def CapeDefaultAngle : ℚ := 10.8 * mathPI / 180

/-- The mutable state of a `PlayerObject` (src/model.ts): its own transform,
the skin rig, the cape and elytra sub-object transforms and visibility, and
the elytra wing state. -/
structure PlayerState where
  position : Vec3
  rotation : Vec3
  skin : SkinState
  capeRot : Vec3
  capePos : Vec3
  capeVisible : Bool
  elytraRot : Vec3
  elytraPos : Vec3
  elytraVisible : Bool
  elytraWings : ElytraState
deriving DecidableEq, Repr

namespace PlayerObject

/-- The `backEquipment` setter (src/model.ts lines 773-776): mutually
exclusive visibility of the cape and elytra sub-objects. -/
def setBackEquipment (value : Option BackEquipment) (p : PlayerState) : PlayerState :=
  { p with
    capeVisible := value = some BackEquipment.cape
    elytraVisible := value = some BackEquipment.elytra }

/-- The `backEquipment` getter (src/model.ts lines 763-771). -/
def getBackEquipment (p : PlayerState) : Option BackEquipment :=
  if p.capeVisible then some BackEquipment.cape
  else if p.elytraVisible then some BackEquipment.elytra
  else none

/-- `PlayerObject.resetJoints` (src/model.ts lines 778-787): resets the skin
rig, restores the cape and elytra rest transforms (only the components the
source writes) and resets the elytra wings. -/
def resetJoints (p : PlayerState) : PlayerState :=
  { p with
    skin := SkinObject.resetJoints p.skin
    capeRot := ⟨CapeDefaultAngle, p.capeRot.y, p.capeRot.z⟩
    capePos := ⟨p.capePos.x, 8, -2⟩
    elytraPos := ⟨p.elytraPos.x, 8, -2⟩
    elytraRot := ⟨0, p.elytraRot.y, p.elytraRot.z⟩
    elytraWings := ElytraObject.resetJoints p.elytraWings }

end PlayerObject

/-- A freshly constructed `PlayerObject` (src/model.ts constructor). -/
def initialPlayerState : PlayerState :=
  { position := vzero
    rotation := vzero
    skin := initialSkinState
    capeRot := ⟨CapeDefaultAngle, mathPI, 0⟩
    capePos := ⟨0, 8, -2⟩
    capeVisible := true
    elytraRot := vzero
    elytraPos := ⟨0, 8, -2⟩
    elytraVisible := false
    elytraWings := initialElytraState }

/-- Association-list update used to model `Map.set`: overwrites the entry
for the key when present, appends it otherwise. -/
def assocSet {α : Type} (l : List (Nat × α)) (k : Nat) (v : α) : List (Nat × α) :=
  match l with
  | [] => [(k, v)]
  | (k0, v0) :: rest =>
      if k0 = k then (k0, v) :: rest else (k0, v0) :: assocSet rest k v

/-- Association-list lookup used to model `Map.get` (with `?? null`). -/
def assocGet {α : Type} (l : List (Nat × α)) (k : Nat) : Option α :=
  match l with
  | [] => none
  | (k0, v0) :: rest => if k0 = k then some v0 else assocGet rest k

/-- Association-list removal used to model `Map.delete`. -/
def assocErase {α : Type} (l : List (Nat × α)) (k : Nat) : List (Nat × α) :=
  match l with
  | [] => []
  | (k0, v0) :: rest =>
      if k0 = k then rest else (k0, v0) :: assocErase rest k

/-- Applies a state transformer to the entry of one player. -/
def updatePose (l : List (Nat × PlayerState)) (k : Nat) (f : PlayerState → PlayerState) :
    List (Nat × PlayerState) :=
  match l with
  | [] => []
  | (k0, v0) :: rest =>
      if k0 = k then (k0, f v0) :: updatePose rest k f
      else (k0, v0) :: updatePose rest k f

/-- The animation-related state of a `SkinViewer` (src/viewer.ts). Players
and animation instances are identified by numeric ids (distinct ids model
distinct object references; JS `!==` becomes id inequality). `players`
lists the ids in order (`players[0]` is `playerObject`); `poses` holds each
player's rig state; `animations` is the per-player `Map`; `animProgress`
holds each animation instance's own `progress`; `currentAnimation` is the
private `_animation` field. -/
structure SkinViewerState where
  players : List Nat
  poses : List (Nat × PlayerState)
  animations : List (Nat × Nat)
  animProgress : List (Nat × ℚ)
  currentAnimation : Option Nat
deriving DecidableEq, Repr

namespace SkinViewer

/-- `SkinViewer.getAnimation` (src/viewer.ts lines 974-976):
`this.animations.get(player) ?? null`. -/
def getAnimation (v : SkinViewerState) (player : Nat) : Option Nat :=
  assocGet v.animations player

/-- `SkinViewer.setAnimation` (src/viewer.ts lines 978-995), transcribed:
when the argument differs (by reference) from the tracked `_animation`, the
given player's joints are reset and its position and rotation zeroed; a
non-null animation has its `progress` set to 0 and is stored in the map,
null deletes the map entry; finally `_animation` is updated only when the
player is the primary `playerObject`. The clock manipulation has no
observable effect on this state. -/
def setAnimation (v : SkinViewerState) (player : Nat) (animation : Option Nat) :
    SkinViewerState :=
  let v1 :=
    if v.currentAnimation ≠ animation then
      { v with
        poses := updatePose v.poses player fun st =>
          { PlayerObject.resetJoints st with position := vzero, rotation := vzero } }
    else v
  let v2 :=
    match animation with
    | some a =>
        { v1 with
          animProgress := assocSet v1.animProgress a 0
          animations := assocSet v1.animations player a }
    | none => { v1 with animations := assocErase v1.animations player }
  if v.players.head? = some player then { v2 with currentAnimation := animation } else v2

/-- The animation-dispatch portion of `SkinViewer.draw` (src/viewer.ts lines
790-796): the list of `(player, animation)` pairs on which
`animation.update(player, dt)` is invoked during one frame. The source
iterates `this.players` and calls `this._animation.update` on every player
whenever `_animation` is non-null; the per-player `animations` map is never
consulted. -/
def drawAnimationCalls (v : SkinViewerState) : List (Nat × Nat) :=
  match v.currentAnimation with
  | none => []
  | some a => v.players.map fun p => (p, a)

end SkinViewer

/-- A 3-component rotation vector over an arbitrary scalar field, used by
the keyframe engine so that the specification's π-valued test vectors can
be stated over ℝ while concrete witnesses run over ℚ. -/
structure RotVec (K : Type) where
  x : K
  y : K
  z : K
deriving DecidableEq, Repr

/-- Component-wise linear interpolation of two rotation vectors. -/
def lerpRot {K : Type} [Field K] (a b : RotVec K) (alpha : K) : RotVec K :=
  ⟨a.x + (b.x - a.x) * alpha, a.y + (b.y - a.y) * alpha, a.z + (b.z - a.z) * alpha⟩

/-- Modelled from the spec: the `KeyframeAnimation` engine is exported by
this repository (`skinview3d.KeyframeAnimation`, used by the editor example
and documented in the README) but its implementation file is not present
under src/. Per-bone-path interpolation, following §4.4 of the spec
verbatim: given the sorted keyframe list `(t0, r0) … (tn, rn)` of one bone
path and a query time `t`, return `r0` when `t ≤ t0`, `rn` when `t ≥ tn`,
and otherwise interpolate each rotation component linearly on the
bracketing interval `[ti, ti+1]` with `alpha = (t - ti) / (ti+1 - ti)`.
The empty track never arises (a path is interpolated only when it appears
in at least one keyframe); it is mapped to the zero rotation. -/
def interpolateTrack {K : Type} [LinearOrderedField K] :
    List (K × RotVec K) → K → RotVec K
  | [], _ => ⟨0, 0, 0⟩
  | [(_, r0)], _ => r0
  | (t0, r0) :: (t1, r1) :: rest, t =>
      if t ≤ t0 then r0
      else if t ≤ t1 then lerpRot r0 r1 ((t - t0) / (t1 - t0))
      else interpolateTrack ((t1, r1) :: rest) t

/-- The named transform nodes of the `SkinObject` scene graph. -/
inductive SkinNode where
  | skinRoot
  | head
  | body
  | rightUpperArm
  | rightUpperArmPivot
  | rightElbow
  | rightLowerArmPivot
  | rightLowerArm
  | leftUpperArm
  | leftUpperArmPivot
  | leftElbow
  | leftLowerArmPivot
  | leftLowerArm
  | rightUpperLeg
  | rightUpperLegPivot
  | rightKnee
  | rightLowerLegPivot
  | rightLowerLeg
  | leftUpperLeg
  | leftUpperLegPivot
  | leftKnee
  | leftLowerLegPivot
  | leftLowerLeg
deriving DecidableEq, Repr

/-- The parent of each named node, read off the `add(...)` calls of the
`SkinObject` constructor (src/model.ts lines 149-490). -/
def parentOf : SkinNode → Option SkinNode
  | .skinRoot => none
  | .head => some .skinRoot
  | .body => some .skinRoot
  | .rightUpperArm => some .skinRoot
  | .rightUpperArmPivot => some .rightUpperArm
  | .rightElbow => some .rightUpperArmPivot
  | .rightLowerArmPivot => some .rightElbow
  | .rightLowerArm => some .rightLowerArmPivot
  | .leftUpperArm => some .skinRoot
  | .leftUpperArmPivot => some .leftUpperArm
  | .leftElbow => some .leftUpperArmPivot
  | .leftLowerArmPivot => some .leftElbow
  | .leftLowerArm => some .leftLowerArmPivot
  | .rightUpperLeg => some .skinRoot
  | .rightUpperLegPivot => some .rightUpperLeg
  | .rightKnee => some .rightUpperLegPivot
  | .rightLowerLegPivot => some .rightKnee
  | .rightLowerLeg => some .rightLowerLegPivot
  | .leftUpperLeg => some .skinRoot
  | .leftUpperLegPivot => some .leftUpperLeg
  | .leftKnee => some .leftUpperLegPivot
  | .leftLowerLegPivot => some .leftKnee
  | .leftLowerLeg => some .leftLowerLegPivot

namespace SkinObject

/-- `skin.rightElbow.rotation.set(x, y, z)`: writing a rotation to the right
elbow pivot group. -/
def setRightElbowRotation (r : Vec3) (s : SkinState) : SkinState :=
  { s with rightElbowRot := r }

/-- `skin.leftElbow.rotation.set(x, y, z)`. -/
def setLeftElbowRotation (r : Vec3) (s : SkinState) : SkinState :=
  { s with leftElbowRot := r }

/-- `skin.rightKnee.rotation.set(x, y, z)`. -/
def setRightKneeRotation (r : Vec3) (s : SkinState) : SkinState :=
  { s with rightKneeRot := r }

/-- `skin.leftKnee.rotation.set(x, y, z)`. -/
def setLeftKneeRotation (r : Vec3) (s : SkinState) : SkinState :=
  { s with leftKneeRot := r }

/-- `skin.rightUpperArm.rotation.set(x, y, z)`: writing a rotation to the
shoulder-level handle. -/
def setRightUpperArmRotation (r : Vec3) (s : SkinState) : SkinState :=
  { s with rightUpperArmRot := r }

/-- `skin.leftUpperArm.rotation.set(x, y, z)`. -/
def setLeftUpperArmRotation (r : Vec3) (s : SkinState) : SkinState :=
  { s with leftUpperArmRot := r }

/-- `skin.rightUpperLeg.rotation.set(x, y, z)`: the hip-level handle. -/
def setRightUpperLegRotation (r : Vec3) (s : SkinState) : SkinState :=
  { s with rightUpperLegRot := r }

/-- `skin.leftUpperLeg.rotation.set(x, y, z)`. -/
def setLeftUpperLegRotation (r : Vec3) (s : SkinState) : SkinState :=
  { s with leftUpperLegRot := r }

end SkinObject

/-- Every local position in the skin rig, as a list (one entry per named
transform node except the root). -/
def allPositions (s : SkinState) : List Vec3 :=
  [s.headPos, s.bodyPos, s.rightUpperArmPos, s.leftUpperArmPos, s.rightUpperLegPos,
   s.leftUpperLegPos, s.rightLowerArmPos, s.leftLowerArmPos, s.rightLowerLegPos,
   s.leftLowerLegPos, s.rightElbowPos, s.leftElbowPos, s.rightKneePos, s.leftKneePos,
   s.rightUpperArmPivotPos, s.leftUpperArmPivotPos, s.rightLowerArmPivotPos,
   s.leftLowerArmPivotPos, s.rightUpperLegPivotPos, s.leftUpperLegPivotPos,
   s.rightLowerLegPivotPos, s.leftLowerLegPivotPos]

/-- Every local Euler rotation in the skin rig, as a list. -/
def allRotations (s : SkinState) : List Vec3 :=
  [s.headRot, s.bodyRot, s.rightUpperArmRot, s.leftUpperArmRot, s.rightUpperLegRot,
   s.leftUpperLegRot, s.rightLowerArmRot, s.leftLowerArmRot, s.rightLowerLegRot,
   s.leftLowerLegRot, s.rightElbowRot, s.leftElbowRot, s.rightKneeRot, s.leftKneeRot,
   s.rightUpperArmPivotRot, s.leftUpperArmPivotRot, s.rightLowerArmPivotRot,
   s.leftLowerArmPivotRot, s.rightUpperLegPivotRot, s.leftUpperLegPivotRot,
   s.rightLowerLegPivotRot, s.leftLowerLegPivotRot]

/-- Local transforms (rotation and position) of every strict descendant of
the right upper arm handle. -/
def rightArmDescendantTransforms (s : SkinState) : List Vec3 :=
  [s.rightUpperArmPivotRot, s.rightUpperArmPivotPos, s.rightElbowRot, s.rightElbowPos,
   s.rightLowerArmPivotRot, s.rightLowerArmPivotPos, s.rightLowerArmRot, s.rightLowerArmPos]

/-- Local transforms of every strict descendant of the left upper arm handle. -/
def leftArmDescendantTransforms (s : SkinState) : List Vec3 :=
  [s.leftUpperArmPivotRot, s.leftUpperArmPivotPos, s.leftElbowRot, s.leftElbowPos,
   s.leftLowerArmPivotRot, s.leftLowerArmPivotPos, s.leftLowerArmRot, s.leftLowerArmPos]

/-- Local transforms of every strict descendant of the right upper leg handle. -/
def rightLegDescendantTransforms (s : SkinState) : List Vec3 :=
  [s.rightUpperLegPivotRot, s.rightUpperLegPivotPos, s.rightKneeRot, s.rightKneePos,
   s.rightLowerLegPivotRot, s.rightLowerLegPivotPos, s.rightLowerLegRot, s.rightLowerLegPos]

/-- Local transforms of every strict descendant of the left upper leg handle. -/
def leftLegDescendantTransforms (s : SkinState) : List Vec3 :=
  [s.leftUpperLegPivotRot, s.leftUpperLegPivotPos, s.leftKneeRot, s.leftKneePos,
   s.leftLowerLegPivotRot, s.leftLowerLegPivotPos, s.leftLowerLegRot, s.leftLowerLegPos]

/-- C4: resetJoints is idempotent on both the skin rig and the whole player:
calling it twice in a row produces exactly the same joint rotations and
positions (indeed the same full state) as calling it once. -/
theorem resetJoints_idempotent (s : SkinState) (p : PlayerState) :
    SkinObject.resetJoints (SkinObject.resetJoints s) = SkinObject.resetJoints s ∧
    PlayerObject.resetJoints (PlayerObject.resetJoints p) = PlayerObject.resetJoints p := by
  constructor <;> rfl

/-- C7: after setting `backEquipment` to any of cape / elytra / null, the
cape is visible iff the value was cape and the elytra is visible iff the
value was elytra (so both are never visible together), and reading
`backEquipment` returns exactly the value that was set. -/
theorem backEquipment_roundtrip (p : PlayerState) (v : Option BackEquipment) :
    ((PlayerObject.setBackEquipment v p).capeVisible = true ↔ v = some BackEquipment.cape) ∧
    ((PlayerObject.setBackEquipment v p).elytraVisible = true ↔ v = some BackEquipment.elytra) ∧
    ¬((PlayerObject.setBackEquipment v p).capeVisible = true ∧
      (PlayerObject.setBackEquipment v p).elytraVisible = true) ∧
    PlayerObject.getBackEquipment (PlayerObject.setBackEquipment v p) = v := by
  rcases v with _ | v
  · simp [PlayerObject.setBackEquipment, PlayerObject.getBackEquipment]
  · cases v <;> simp [PlayerObject.setBackEquipment, PlayerObject.getBackEquipment]

/-- C10: after `updateRightWing` (and hence after every
`ElytraObject.resetJoints`, which ends by invoking it), the right wing
mirrors the left wing: x position negated, y position copied, x rotation
copied, y and z rotations negated — for every left-wing pose. -/
theorem elytra_right_wing_mirror (e : ElytraState) :
    ((ElytraObject.updateRightWing e).rightWingPos.x =
        -(ElytraObject.updateRightWing e).leftWingPos.x ∧
      (ElytraObject.updateRightWing e).rightWingPos.y =
        (ElytraObject.updateRightWing e).leftWingPos.y ∧
      (ElytraObject.updateRightWing e).rightWingRot.x =
        (ElytraObject.updateRightWing e).leftWingRot.x ∧
      (ElytraObject.updateRightWing e).rightWingRot.y =
        -(ElytraObject.updateRightWing e).leftWingRot.y ∧
      (ElytraObject.updateRightWing e).rightWingRot.z =
        -(ElytraObject.updateRightWing e).leftWingRot.z) ∧
    ((ElytraObject.resetJoints e).rightWingPos.x =
        -(ElytraObject.resetJoints e).leftWingPos.x ∧
      (ElytraObject.resetJoints e).rightWingPos.y =
        (ElytraObject.resetJoints e).leftWingPos.y ∧
      (ElytraObject.resetJoints e).rightWingRot.x =
        (ElytraObject.resetJoints e).leftWingRot.x ∧
      (ElytraObject.resetJoints e).rightWingRot.y =
        -(ElytraObject.resetJoints e).leftWingRot.y ∧
      (ElytraObject.resetJoints e).rightWingRot.z =
        -(ElytraObject.resetJoints e).leftWingRot.z) := by
  exact ⟨⟨rfl, rfl, rfl, rfl, rfl⟩, ⟨rfl, rfl, rfl, rfl, rfl⟩⟩

/-- C8: `setInnerLayerVisible` writes the given flag to the inner layer of
every body part, `setOuterLayerVisible` to the outer layer of every body
part, and neither call changes any rotation or position of the rig. -/
theorem layer_visibility_visual_only (s : SkinState) (b : Bool) :
    ((SkinObject.setInnerLayerVisible b s).headVis.inner = b ∧
      (SkinObject.setInnerLayerVisible b s).bodyVis.inner = b ∧
      (SkinObject.setInnerLayerVisible b s).rightUpperArmVis.inner = b ∧
      (SkinObject.setInnerLayerVisible b s).leftUpperArmVis.inner = b ∧
      (SkinObject.setInnerLayerVisible b s).rightUpperLegVis.inner = b ∧
      (SkinObject.setInnerLayerVisible b s).leftUpperLegVis.inner = b ∧
      (SkinObject.setInnerLayerVisible b s).rightLowerArmVis.inner = b ∧
      (SkinObject.setInnerLayerVisible b s).leftLowerArmVis.inner = b ∧
      (SkinObject.setInnerLayerVisible b s).rightLowerLegVis.inner = b ∧
      (SkinObject.setInnerLayerVisible b s).leftLowerLegVis.inner = b) ∧
    ((SkinObject.setOuterLayerVisible b s).headVis.outer = b ∧
      (SkinObject.setOuterLayerVisible b s).bodyVis.outer = b ∧
      (SkinObject.setOuterLayerVisible b s).rightUpperArmVis.outer = b ∧
      (SkinObject.setOuterLayerVisible b s).leftUpperArmVis.outer = b ∧
      (SkinObject.setOuterLayerVisible b s).rightUpperLegVis.outer = b ∧
      (SkinObject.setOuterLayerVisible b s).leftUpperLegVis.outer = b ∧
      (SkinObject.setOuterLayerVisible b s).rightLowerArmVis.outer = b ∧
      (SkinObject.setOuterLayerVisible b s).leftLowerArmVis.outer = b ∧
      (SkinObject.setOuterLayerVisible b s).rightLowerLegVis.outer = b ∧
      (SkinObject.setOuterLayerVisible b s).leftLowerLegVis.outer = b) ∧
    allRotations (SkinObject.setInnerLayerVisible b s) = allRotations s ∧
    allPositions (SkinObject.setInnerLayerVisible b s) = allPositions s ∧
    allRotations (SkinObject.setOuterLayerVisible b s) = allRotations s ∧
    allPositions (SkinObject.setOuterLayerVisible b s) = allPositions s := by
  and_intros <;> rfl

/-- C6: in the constructed scene graph each elbow/knee group is the child
of the corresponding upper arm/leg pivot and each lower arm/leg pivot is
the child of the elbow/knee; writing a rotation to an elbow or knee changes
no local position in the rig (the upper limbs' torso attachment positions
included), and writing a rotation to a shoulder- or hip-level handle leaves
the local transforms of all its descendant pivots unchanged. -/
theorem joint_hierarchy_rigidity (s : SkinState) (r : Vec3) :
    (parentOf SkinNode.rightElbow = some SkinNode.rightUpperArmPivot ∧
      parentOf SkinNode.leftElbow = some SkinNode.leftUpperArmPivot ∧
      parentOf SkinNode.rightKnee = some SkinNode.rightUpperLegPivot ∧
      parentOf SkinNode.leftKnee = some SkinNode.leftUpperLegPivot ∧
      parentOf SkinNode.rightLowerArmPivot = some SkinNode.rightElbow ∧
      parentOf SkinNode.leftLowerArmPivot = some SkinNode.leftElbow ∧
      parentOf SkinNode.rightLowerLegPivot = some SkinNode.rightKnee ∧
      parentOf SkinNode.leftLowerLegPivot = some SkinNode.leftKnee ∧
      parentOf SkinNode.rightUpperArmPivot = some SkinNode.rightUpperArm ∧
      parentOf SkinNode.leftUpperArmPivot = some SkinNode.leftUpperArm ∧
      parentOf SkinNode.rightUpperLegPivot = some SkinNode.rightUpperLeg ∧
      parentOf SkinNode.leftUpperLegPivot = some SkinNode.leftUpperLeg) ∧
    (allPositions (SkinObject.setRightElbowRotation r s) = allPositions s ∧
      allPositions (SkinObject.setLeftElbowRotation r s) = allPositions s ∧
      allPositions (SkinObject.setRightKneeRotation r s) = allPositions s ∧
      allPositions (SkinObject.setLeftKneeRotation r s) = allPositions s) ∧
    ((SkinObject.setRightElbowRotation r s).rightUpperArmPos = s.rightUpperArmPos ∧
      (SkinObject.setLeftElbowRotation r s).leftUpperArmPos = s.leftUpperArmPos ∧
      (SkinObject.setRightKneeRotation r s).rightUpperLegPos = s.rightUpperLegPos ∧
      (SkinObject.setLeftKneeRotation r s).leftUpperLegPos = s.leftUpperLegPos) ∧
    (rightArmDescendantTransforms (SkinObject.setRightUpperArmRotation r s) =
        rightArmDescendantTransforms s ∧
      leftArmDescendantTransforms (SkinObject.setLeftUpperArmRotation r s) =
        leftArmDescendantTransforms s ∧
      rightLegDescendantTransforms (SkinObject.setRightUpperLegRotation r s) =
        rightLegDescendantTransforms s ∧
      leftLegDescendantTransforms (SkinObject.setLeftUpperLegRotation r s) =
        leftLegDescendantTransforms s) := by
  and_intros <;> rfl

/-- The rig transform fields that the `modelType` setter must leave alone:
every leg, head and body transform, every arm rotation, the arm body-part
and elbow positions, and the lower arm pivot transforms. The two upper-arm
pivot positions are represented by their y and z components only, since the
listeners rewrite just their x offsets. -/
def modelTypeUntouched (s : SkinState) : List Vec3 :=
  [s.headRot, s.headPos, s.bodyRot, s.bodyPos,
   s.rightUpperLegRot, s.rightUpperLegPos, s.leftUpperLegRot, s.leftUpperLegPos,
   s.rightLowerLegRot, s.rightLowerLegPos, s.leftLowerLegRot, s.leftLowerLegPos,
   s.rightKneeRot, s.rightKneePos, s.leftKneeRot, s.leftKneePos,
   s.rightUpperLegPivotRot, s.rightUpperLegPivotPos,
   s.leftUpperLegPivotRot, s.leftUpperLegPivotPos,
   s.rightLowerLegPivotRot, s.rightLowerLegPivotPos,
   s.leftLowerLegPivotRot, s.leftLowerLegPivotPos,
   s.rightUpperArmRot, s.rightUpperArmPos, s.leftUpperArmRot, s.leftUpperArmPos,
   s.rightLowerArmRot, s.rightLowerArmPos, s.leftLowerArmRot, s.leftLowerArmPos,
   s.rightElbowRot, s.rightElbowPos, s.leftElbowRot, s.leftElbowPos,
   s.rightLowerArmPivotRot, s.rightLowerArmPivotPos,
   s.leftLowerArmPivotRot, s.leftLowerArmPivotPos,
   s.rightUpperArmPivotRot, s.leftUpperArmPivotRot,
   ⟨0, s.rightUpperArmPivotPos.y, s.rightUpperArmPivotPos.z⟩,
   ⟨0, s.leftUpperArmPivotPos.y, s.leftUpperArmPivotPos.z⟩]

/-- C5: setting `modelType` touches only the arm mesh scales, the arm UV
rectangles and the upper-arm pivot x offsets — every leg, head and body
transform (and every other rig transform) is unchanged — and on a
listener-consistent default-model state, switching to slim and back to
default restores the entire state, arm scales and offsets included. -/
theorem modelType_arm_local_roundtrip (s : SkinState) :
    (∀ v : ModelType,
      modelTypeUntouched (SkinObject.setModelType v s) = modelTypeUntouched s) ∧
    (SkinObject.applyModelListeners s = s → s.slim = false →
      SkinObject.setModelType ModelType.default
        (SkinObject.setModelType ModelType.slim s) = s) := by
  constructor
  · intro v
    cases v <;> rfl
  · intro h hslim
    have h2 : SkinObject.setModelType ModelType.default
        (SkinObject.setModelType ModelType.slim s) =
        SkinObject.applyModelListeners { s with slim := false } := rfl
    have h3 : ({ s with slim := false } : SkinState) = s := by
      cases s
      simp_all
    rw [h2, h3, h]

/-- Witness for C5 at the freshly constructed rig: the initial state is
listener-consistent and non-slim, and toggling slim and back restores it. -/
theorem modelType_arm_local_roundtrip_witness :
    SkinObject.applyModelListeners initialSkinState = initialSkinState ∧
    initialSkinState.slim = false ∧
    SkinObject.setModelType ModelType.default
      (SkinObject.setModelType ModelType.slim initialSkinState) = initialSkinState :=
  ⟨rfl, rfl, (modelType_arm_local_roundtrip initialSkinState).2 rfl rfl⟩

/-- A reachable pose in which an animation has bent the left upper-arm
pivot group: exactly the write performed by the repository's own regression
test for the reset path (tests/animation-reset.test.js, class `AnimA`:
`player.skin.leftUpperArmPivot.rotation.x = 0.5`). -/
def disturbedPivotSkin : SkinState :=
  { initialSkinState with leftUpperArmPivotRot := ⟨1/2, 0, 0⟩ }

/-- C1: the claim fails on the code. `SkinObject.resetJoints` never writes
the rotations of the eight `*Pivot` groups, so after an animation rotates
`leftUpperArmPivot` the reset leaves that rotation in place: the rig is not
restored to the all-zero pivot rotations the claim (and the repository's
own test) demands, and is observably different from a freshly constructed
rig of the same model variant. -/
theorem resetJoints_misses_pivot_rotation :
    (SkinObject.resetJoints disturbedPivotSkin).leftUpperArmPivotRot = ⟨1/2, 0, 0⟩ ∧
    initialSkinState.leftUpperArmPivotRot = vzero ∧
    SkinObject.resetJoints disturbedPivotSkin ≠ initialSkinState := by
  refine ⟨rfl, rfl, ?_⟩
  intro h
  have h2 : (⟨1/2, 0, 0⟩ : Vec3) = vzero := by
    calc (⟨1/2, 0, 0⟩ : Vec3)
        = (SkinObject.resetJoints disturbedPivotSkin).leftUpperArmPivotRot := rfl
      _ = initialSkinState.leftUpperArmPivotRot := by rw [h]
      _ = vzero := rfl
  exact absurd (congrArg Vec3.x h2) (by norm_num [vzero])

theorem assocGet_assocSet_self {α : Type} (l : List (Nat × α)) (k : Nat) (v : α) :
    assocGet (assocSet l k v) k = some v := by
  induction l with
  | nil => simp [assocSet, assocGet]
  | cons kv rest ih =>
      obtain ⟨k0, v0⟩ := kv
      by_cases h : k0 = k
      · simp [assocSet, assocGet, h]
      · simp [assocSet, assocGet, h, ih]

theorem assocGet_eq_none_of_not_mem {α : Type} (l : List (Nat × α)) (k : Nat)
    (h : k ∉ l.map Prod.fst) : assocGet l k = none := by
  induction l with
  | nil => rfl
  | cons kv rest ih =>
      obtain ⟨k0, v0⟩ := kv
      simp only [List.map_cons, List.mem_cons, not_or] at h
      simp [assocGet, fun hh : k0 = k => h.1 hh.symm, ih h.2, Ne.symm]
      exact fun hh => h.1 hh.symm

theorem assocGet_assocErase_self {α : Type} (l : List (Nat × α)) (k : Nat)
    (hnd : (l.map Prod.fst).Nodup) : assocGet (assocErase l k) k = none := by
  induction l with
  | nil => rfl
  | cons kv rest ih =>
      obtain ⟨k0, v0⟩ := kv
      simp only [List.map_cons, List.nodup_cons] at hnd
      by_cases h : k0 = k
      · subst h
        simp [assocErase, assocGet_eq_none_of_not_mem rest k0 hnd.1]
      · simp [assocErase, assocGet, h, ih hnd.2]

theorem assocGet_updatePose_self (l : List (Nat × PlayerState)) (k : Nat)
    (f : PlayerState → PlayerState) :
    assocGet (updatePose l k f) k = (assocGet l k).map f := by
  induction l with
  | nil => rfl
  | cons kv rest ih =>
      obtain ⟨k0, v0⟩ := kv
      by_cases h : k0 = k
      · simp [updatePose, assocGet, h]
      · simp [updatePose, assocGet, h, ih]

/-- C2 (amended): `setAnimation(player, a)` always sets a non-null `a`'s
`progress` to 0 and stores it as the player's animation, and assigning null
removes the player's animation; but the pose reset (resetJoints plus zeroed
player position and rotation) is performed only when `a` differs by
reference from the viewer's tracked `_animation` (the primary player's
last-set animation) — when they coincide the poses are untouched. -/
theorem setAnimation_guarded_reset (v : SkinViewerState) (p : Nat) (a : Option Nat) :
    (a ≠ v.currentAnimation →
      assocGet (SkinViewer.setAnimation v p a).poses p =
        (assocGet v.poses p).map fun st =>
          { PlayerObject.resetJoints st with position := vzero, rotation := vzero }) ∧
    (a = v.currentAnimation → (SkinViewer.setAnimation v p a).poses = v.poses) ∧
    (∀ aid, a = some aid →
      assocGet (SkinViewer.setAnimation v p a).animProgress aid = some 0 ∧
      assocGet (SkinViewer.setAnimation v p a).animations p = some aid) ∧
    (a = none → (v.animations.map Prod.fst).Nodup →
      assocGet (SkinViewer.setAnimation v p a).animations p = none) := by
  refine ⟨?_, ?_, ?_, ?_⟩
  · intro h
    have h2 : v.currentAnimation ≠ a := Ne.symm h
    cases a <;> by_cases hh : v.players.head? = some p <;>
      simp [SkinViewer.setAnimation, h2, hh, assocGet_updatePose_self]
  · intro h
    subst h
    cases hc : v.currentAnimation <;> by_cases hh : v.players.head? = some p <;>
      simp [SkinViewer.setAnimation, hc, hh]
  · intro aid ha
    subst ha
    by_cases hg : v.currentAnimation = some aid <;>
      by_cases hh : v.players.head? = some p <;>
        simp [SkinViewer.setAnimation, hg, hh, assocGet_assocSet_self]
  · intro ha hnd
    subst ha
    by_cases hg : v.currentAnimation = none <;>
      by_cases hh : v.players.head? = some p <;>
        simp [SkinViewer.setAnimation, hg, hh, assocGet_assocErase_self _ _ hnd]

/-- A player whose head an animation has turned away from rest. -/
def primaryDisturbed : PlayerState :=
  { initialPlayerState with skin := { initialSkinState with headRot := ⟨1, 0, 0⟩ } }

/-- A viewer whose single (primary) player is posed mid-animation by
animation instance 7 (progress 5), as after `setAnimation(player, anim7)`
followed by some frames of `anim7.update`. -/
def viewerSameAnimation : SkinViewerState :=
  { players := [0]
    poses := [(0, primaryDisturbed)]
    animations := [(0, 7)]
    animProgress := [(7, 5)]
    currentAnimation := some 7 }

/-- Counterexample to C2 as stated: re-assigning the very animation that is
already tracked as `_animation` (here instance 7 to player 0) skips the
pose reset — the disturbed head rotation (1, 0, 0) survives `setAnimation`,
although the claim promises a rest pose (head rotation zero, as
`resetJoints` would produce). -/
theorem setAnimation_same_instance_skips_reset :
    assocGet (SkinViewer.setAnimation viewerSameAnimation 0 (some 7)).poses 0 =
      some primaryDisturbed ∧
    primaryDisturbed.skin.headRot = ⟨1, 0, 0⟩ ∧
    (PlayerObject.resetJoints primaryDisturbed).skin.headRot = vzero ∧
    primaryDisturbed.skin.headRot ≠ vzero := by
  refine ⟨rfl, rfl, rfl, ?_⟩
  intro h
  exact absurd (congrArg Vec3.x h) (by norm_num [primaryDisturbed, vzero])

/-- Witness for the amended C2 at a concrete viewer: assigning a fresh
animation instance 9 (different from the tracked instance 7) does reset the
player's pose and zeroes the new instance's progress. -/
theorem setAnimation_guarded_reset_witness :
    (assocGet (SkinViewer.setAnimation viewerSameAnimation 0 (some 9)).poses 0 =
      (assocGet viewerSameAnimation.poses 0).map fun st =>
        { PlayerObject.resetJoints st with position := vzero, rotation := vzero }) ∧
    assocGet (SkinViewer.setAnimation viewerSameAnimation 0 (some 9)).animProgress 9 =
      some 0 :=
  ⟨(setAnimation_guarded_reset viewerSameAnimation 0 (some 9)).1 (by decide),
    ((setAnimation_guarded_reset viewerSameAnimation 0 (some 9)).2.2.1 9 rfl).1⟩

/-- A viewer with three players and no animations, as right after
construction plus two `addPlayer()` calls. -/
def threePlayerViewer : SkinViewerState :=
  { players := [0, 1, 2]
    poses := [(0, initialPlayerState), (1, initialPlayerState), (2, initialPlayerState)]
    animations := []
    animProgress := [(10, 0), (11, 0)]
    currentAnimation := none }

/-- The three-player viewer after `setAnimation(players[0], 10)` and
`setAnimation(players[1], 11)`; player 2 has no animation assigned. -/
def viewerAB : SkinViewerState :=
  SkinViewer.setAnimation (SkinViewer.setAnimation threePlayerViewer 0 (some 10)) 1 (some 11)

/-- C3: the claim fails on the code. In a frame drawn for `viewerAB`,
`draw` invokes the primary player's `_animation` (instance 10) on all three
players, although `getAnimation` reports instance 11 for player 1 and no
animation at all for player 2: the per-player animation map is never
consulted by the frame loop, and a player with no assigned animation is
still animated. -/
theorem draw_ignores_per_player_animations :
    SkinViewer.drawAnimationCalls viewerAB = [(0, 10), (1, 10), (2, 10)] ∧
    SkinViewer.getAnimation viewerAB 0 = some 10 ∧
    SkinViewer.getAnimation viewerAB 1 = some 11 ∧
    SkinViewer.getAnimation viewerAB 2 = none := by
  exact ⟨rfl, rfl, rfl, rfl⟩

theorem lerpRot_one {K : Type} [Field K] (a b : RotVec K) : lerpRot a b 1 = b := by
  cases a
  cases b
  simp only [lerpRot, RotVec.mk.injEq]
  refine ⟨by ring, by ring, by ring⟩

theorem interpolateTrack_le_head {K : Type} [LinearOrderedField K]
    (t0 : K) (r0 : RotVec K) (rest : List (K × RotVec K)) (t : K) (h : t ≤ t0) :
    interpolateTrack ((t0, r0) :: rest) t = r0 := by
  cases rest with
  | nil => rfl
  | cons b rest2 =>
      obtain ⟨t1, r1⟩ := b
      simp [interpolateTrack, h]

theorem pairwise_head_le_getLast {K : Type} [LinearOrderedField K]
    (x : K × RotVec K) (l : List (K × RotVec K))
    (hp : List.Pairwise (fun a b => a.1 < b.1) (x :: l)) :
    x.1 ≤ ((x :: l).getLast (List.cons_ne_nil _ _)).1 := by
  cases l with
  | nil => simp [List.getLast]
  | cons b l2 =>
      have hmem : ((b :: l2).getLast (List.cons_ne_nil _ _)) ∈ b :: l2 :=
        List.getLast_mem _
      have hlt := (List.pairwise_cons.mp hp).1 _ hmem
      rw [List.getLast_cons (List.cons_ne_nil _ _)]
      exact le_of_lt hlt

theorem interpolateTrack_ge_last {K : Type} [LinearOrderedField K] (t : K) :
    ∀ (t0 : K) (r0 : RotVec K) (rest : List (K × RotVec K)),
      List.Pairwise (fun a b => a.1 < b.1) ((t0, r0) :: rest) →
      (((t0, r0) :: rest).getLast (List.cons_ne_nil _ _)).1 ≤ t →
      interpolateTrack ((t0, r0) :: rest) t =
        (((t0, r0) :: rest).getLast (List.cons_ne_nil _ _)).2 := by
  intro t0 r0 rest
  induction rest generalizing t0 r0 with
  | nil => intro _ _; rfl
  | cons b rest2 ih =>
      obtain ⟨t1, r1⟩ := b
      intro hp hl
      obtain ⟨hall, hptail⟩ := List.pairwise_cons.mp hp
      have h01 : t0 < t1 := hall (t1, r1) (by simp)
      rw [List.getLast_cons (List.cons_ne_nil _ _)] at hl
      have h1last : t1 ≤ (((t1, r1) :: rest2).getLast (List.cons_ne_nil _ _)).1 :=
        pairwise_head_le_getLast (t1, r1) rest2 hptail
      have ht0 : ¬ t ≤ t0 := not_le.mpr (lt_of_lt_of_le h01 (le_trans h1last hl))
      by_cases h1 : t ≤ t1
      · have hteq : t = t1 := le_antisymm h1 (le_trans h1last hl)
        cases rest2 with
        | nil =>
            have hne : t1 - t0 ≠ 0 := sub_ne_zero.mpr (ne_of_gt h01)
            have hunf : interpolateTrack ((t0, r0) :: [(t1, r1)]) t =
                lerpRot r0 r1 ((t - t0) / (t1 - t0)) := by
              simp [interpolateTrack, ht0, h1]
            rw [hunf, hteq, div_self hne, lerpRot_one]
            rfl
        | cons c rest3 =>
            exfalso
            have hc : t1 < c.1 := (List.pairwise_cons.mp hptail).1 c (by simp)
            have hclast : c.1 ≤ (((c :: rest3).getLast (List.cons_ne_nil _ _))).1 :=
              pairwise_head_le_getLast c rest3 (List.pairwise_cons.mp hptail).2
            rw [List.getLast_cons (List.cons_ne_nil _ _)] at hl
            have : t1 < t := lt_of_lt_of_le hc (le_trans hclast hl)
            exact absurd h1 (not_le.mpr this)
      · have hstep : interpolateTrack ((t0, r0) :: (t1, r1) :: rest2) t =
            interpolateTrack ((t1, r1) :: rest2) t := by
          simp [interpolateTrack, ht0, h1]
        rw [hstep, List.getLast_cons (List.cons_ne_nil _ _)]
        exact ih t1 r1 hptail hl

theorem interpolateTrack_bracket {K : Type} [LinearOrderedField K] (t ti tj : K)
    (ri rj : RotVec K) :
    ∀ (l1 l2 : List (K × RotVec K)),
      List.Pairwise (fun a b => a.1 < b.1) (l1 ++ (ti, ri) :: (tj, rj) :: l2) →
      ti < t → t ≤ tj →
      interpolateTrack (l1 ++ (ti, ri) :: (tj, rj) :: l2) t =
        lerpRot ri rj ((t - ti) / (tj - ti)) := by
  intro l1
  induction l1 with
  | nil =>
      intro l2 hp h1 h2
      have hti : ¬ t ≤ ti := not_le.mpr h1
      simp [interpolateTrack, hti, h2]
  | cons a l1t ih =>
      intro l2 hp h1 h2
      obtain ⟨ta, ra⟩ := a
      have hta : ta < ti := (List.pairwise_cons.mp hp).1 (ti, ri) (by simp)
      have hta2 : ¬ t ≤ ta := not_le.mpr (lt_trans hta h1)
      cases l1t with
      | nil =>
          have hti : ¬ t ≤ ti := not_le.mpr h1
          have hstep : interpolateTrack ((ta, ra) :: (ti, ri) :: (tj, rj) :: l2) t =
              interpolateTrack ((ti, ri) :: (tj, rj) :: l2) t := by
            simp [interpolateTrack, hta2, hti, h2]
          simp only [List.nil_append] at ih
          simpa [hstep] using ih l2 (List.pairwise_cons.mp hp).2 h1 h2
      | cons b l1tt =>
          obtain ⟨tb, rb⟩ := b
          have htb : tb < ti :=
            (List.pairwise_cons.mp (List.pairwise_cons.mp hp).2).1 (ti, ri) (by simp)
          have htb2 : ¬ t ≤ tb := not_le.mpr (lt_trans htb h1)
          have hstep : interpolateTrack
              (((ta, ra) :: (tb, rb) :: l1tt) ++ (ti, ri) :: (tj, rj) :: l2) t =
              interpolateTrack (((tb, rb) :: l1tt) ++ (ti, ri) :: (tj, rj) :: l2) t := by
            simp [interpolateTrack, hta2, htb2]
          rw [hstep]
          exact ih l2 (List.pairwise_cons.mp hp).2 h1 h2

/-- C9: per bone path, keyframe interpolation clamps to the first rotation
at or before the first keyframe time, clamps to the last rotation at or
after the last keyframe time, and between two adjacent keyframes linearly
interpolates each rotation component with `alpha = (t - ti) / (tj - ti)`;
in particular with keyframes `[0,0,0]` at `t = 0` and `[0, π, 0]` at
`t = 1`, querying at 0.5 gives `[0, π/2, 0]`, at -1 gives `[0,0,0]` and at
5 gives `[0, π, 0]`. -/
theorem keyframe_interpolation_spec :
    (∀ (t0 t : ℝ) (r0 : RotVec ℝ) (rest : List (ℝ × RotVec ℝ)), t ≤ t0 →
      interpolateTrack ((t0, r0) :: rest) t = r0) ∧
    (∀ (t t0 : ℝ) (r0 : RotVec ℝ) (rest : List (ℝ × RotVec ℝ)),
      List.Pairwise (fun a b => a.1 < b.1) ((t0, r0) :: rest) →
      (((t0, r0) :: rest).getLast (List.cons_ne_nil _ _)).1 ≤ t →
      interpolateTrack ((t0, r0) :: rest) t =
        (((t0, r0) :: rest).getLast (List.cons_ne_nil _ _)).2) ∧
    (∀ (t ti tj : ℝ) (ri rj : RotVec ℝ) (l1 l2 : List (ℝ × RotVec ℝ)),
      List.Pairwise (fun a b => a.1 < b.1) (l1 ++ (ti, ri) :: (tj, rj) :: l2) →
      ti < t → t ≤ tj →
      interpolateTrack (l1 ++ (ti, ri) :: (tj, rj) :: l2) t =
        lerpRot ri rj ((t - ti) / (tj - ti))) ∧
    interpolateTrack [((0 : ℝ), ⟨0, 0, 0⟩), (1, ⟨0, Real.pi, 0⟩)] (1/2) =
      ⟨0, Real.pi / 2, 0⟩ ∧
    interpolateTrack [((0 : ℝ), ⟨0, 0, 0⟩), (1, ⟨0, Real.pi, 0⟩)] (-1) = ⟨0, 0, 0⟩ ∧
    interpolateTrack [((0 : ℝ), ⟨0, 0, 0⟩), (1, ⟨0, Real.pi, 0⟩)] 5 = ⟨0, Real.pi, 0⟩ := by
  refine ⟨?_, ?_, ?_, ?_, ?_, ?_⟩
  · intro t0 t r0 rest h
    exact interpolateTrack_le_head t0 r0 rest t h
  · intro t t0 r0 rest hp hl
    exact interpolateTrack_ge_last t t0 r0 rest hp hl
  · intro t ti tj ri rj l1 l2 hp h1 h2
    exact interpolateTrack_bracket t ti tj ri rj l1 l2 hp h1 h2
  · have hb := interpolateTrack_bracket (K := ℝ) (1/2) 0 1 ⟨0, 0, 0⟩ ⟨0, Real.pi, 0⟩ [] []
      (by norm_num [List.pairwise_cons]) (by norm_num) (by norm_num)
    rw [List.nil_append] at hb
    rw [hb]
    simp only [lerpRot, RotVec.mk.injEq]
    norm_num
    ring
  · exact interpolateTrack_le_head 0 ⟨0, 0, 0⟩ _ (-1) (by norm_num)
  · have hgl := interpolateTrack_ge_last (K := ℝ) 5 0 ⟨0, 0, 0⟩ [(1, ⟨0, Real.pi, 0⟩)]
      (by norm_num [List.pairwise_cons]) (by norm_num [List.getLast])
    simpa [List.getLast] using hgl

/-- Witness for C9 at concrete inputs: clamping below the first and above
the last keyframe of a two-keyframe track. -/
theorem keyframe_interpolation_spec_witness :
    interpolateTrack [((0 : ℝ), ⟨0, 0, 0⟩), (1, ⟨0, 1, 0⟩)] (-2) = ⟨0, 0, 0⟩ ∧
    interpolateTrack [((0 : ℝ), ⟨0, 0, 0⟩), (1, ⟨0, 1, 0⟩)] 3 = ⟨0, 1, 0⟩ :=
  ⟨keyframe_interpolation_spec.1 0 (-2) ⟨0, 0, 0⟩ [(1, ⟨0, 1, 0⟩)] (by norm_num),
   by
    have hgl := keyframe_interpolation_spec.2.1 3 0 ⟨0, 0, 0⟩ [(1, ⟨0, 1, 0⟩)]
      (by norm_num [List.pairwise_cons]) (by norm_num [List.getLast])
    simpa [List.getLast] using hgl⟩
